import Mathlib

/-!
Shallow embedding of `deepcvlab/utils/Dense_U_Net_lidar_helper.py`.

Numeric grids are modelled over `ℚ` (the code computes with torch/numpy
floats; every constant appearing in the code, including `-6.2 = -31/5`, is an
exact rational, and the claims are about the exact formulas).  A 2-D tensor is
a total function `ℕ → ℕ → ℚ` together with explicitly tracked dimensions; a
3-channel map is `ℕ → ℕ → ℕ → ℚ` (channel, row, column).  numpy fancy
assignment that can raise (shape/broadcast mismatch) is modelled with
`Except String`.
-/

/-- A decoded bounding-box label, mirroring the dict
`{'type', 'x', 'y', 'width', 'height'}` built in `waymo_to_pytorch_offline`:
`x`, `y` are the (possibly negative) upper-left corner in pixels, `width` and
`height` the box extent. -/
structure Label where
  type : ℤ
  x : ℤ
  y : ℤ
  width : ℕ
  height : ℕ

/-- numpy slice assignment `g[r0:r1, c0:c1] = v` on an unbounded grid:
cells inside the half-open rectangle get `v`, all others keep their value. -/
def regionWrite (g : ℕ → ℕ → ℚ) (r0 r1 c0 c1 : ℕ) (v : ℚ) : ℕ → ℕ → ℚ :=
  fun r c => if r0 ≤ r ∧ r < r1 ∧ c0 ≤ c ∧ c < c1 then v else g r c

/-- `_create_ground_truth_bb_pedestrian` applied to `np.ones((h, w))`:
five sequential region writes (top-left, top-right, bottom-left,
bottom-right, bottom-center) with `height_fraction = h // 5` and
`width_fraction = w // 4`.  Cell access is `(row, col)`. -/
def create_ground_truth_bb_pedestrian (h w : ℕ) : ℕ → ℕ → ℚ :=
  regionWrite (regionWrite (regionWrite (regionWrite (regionWrite
    (fun _ _ => 1)
    0 (h / 5) 0 (w / 4) (3 / 10))
    0 (h / 5) ((w / 4) * 3) w (3 / 10))
    ((h / 5) * 3) h 0 (w / 4) (1 / 2))
    ((h / 5) * 3) h ((w / 4) * 3) w (1 / 2))
    ((h / 5) * 3) h (w / 4) ((w / 4) * 3) (3 / 4)

/-- `_create_ground_truth_bb`: allocate `np.ones((height, width))`, dispatch on
the class (2 = pedestrian template, 4 = cyclist identity, 1 = vehicle
identity), otherwise `raise TypeError('the ground truth label class does not
exist')`. -/
def create_ground_truth_bb (object_class : ℤ) (width height : ℕ) :
    Except String (ℕ → ℕ → ℚ) :=
  if object_class = 2 then
    Except.ok (create_ground_truth_bb_pedestrian height width)
  else if object_class = 4 then
    Except.ok (fun _ _ => 1)
  else if object_class = 1 then
    Except.ok (fun _ _ => 1)
  else
    Except.error "the ground truth label class does not exist"

/-- Resolution of a Python slice endpoint `a` against an axis of length `n`:
negative endpoints count from the end (clamped at 0), non-negative ones are
clamped at `n`. -/
def sliceIdx (a : ℤ) (n : ℕ) : ℕ :=
  if a < 0 then (a + n).toNat else min a.toNat n

/-- numpy assignment `m[y:y+h, x:x+w] = box` where `box` has shape `(h, w)`:
the slice is resolved against the `(H, W)` grid; the write succeeds iff each
source dimension equals the slice dimension or is 1 (numpy broadcasting),
otherwise it raises a broadcast error. -/
def assignSlice (m : ℕ → ℕ → ℚ) (y : ℤ) (h : ℕ) (x : ℤ) (w : ℕ)
    (box : ℕ → ℕ → ℚ) (H W : ℕ) : Except String (ℕ → ℕ → ℚ) :=
  let r0 := sliceIdx y H
  let r1 := sliceIdx (y + h) H
  let c0 := sliceIdx x W
  let c1 := sliceIdx (x + w) W
  if (h = r1 - r0 ∨ h = 1) ∧ (w = c1 - c0 ∨ w = 1) then
    Except.ok fun r c =>
      if r0 ≤ r ∧ r < r1 ∧ c0 ≤ c ∧ c < c1 then
        box (if h = 1 then 0 else r - r0) (if w = 1 then 0 else c - c0)
      else m r c
  else
    Except.error "could not broadcast"

/-- `(object_class==1)*0 + (object_class==2)*1 + (object_class==4)*2`:
the channel remapping VEHICLE→0, PEDESTRIAN→1, CYCLIST→2. -/
def objIdx (t : ℤ) : ℕ :=
  (if t = 1 then 0 else 0) + (if t = 2 then 1 else 0) + (if t = 4 then 2 else 0)

/-- One iteration of the loop body of `create_ground_truth_maps`: labels whose
class is not 1, 2 or 4 are skipped (the guard `if object_class == 1 or
object_class == 2 or object_class == 4`); recognized labels build their
template and write it into channel `objIdx type` at the box offset. -/
def processLabel (height_img width_img : ℕ) (m : ℕ → ℕ → ℕ → ℚ)
    (elem : Label) : Except String (ℕ → ℕ → ℕ → ℚ) :=
  if elem.type = 1 ∨ elem.type = 2 ∨ elem.type = 4 then
    match create_ground_truth_bb elem.type elem.width elem.height with
    | Except.error e => Except.error e
    | Except.ok box =>
      match assignSlice (m (objIdx elem.type)) elem.y elem.height elem.x
          elem.width box height_img width_img with
      | Except.error e => Except.error e
      | Except.ok ch =>
        Except.ok fun i => if i = objIdx elem.type then ch else m i
  else
    Except.ok m

/-- `create_ground_truth_maps(ground_truth, width_img, height_img)`: start
from `np.zeros((3, height_img, width_img))` and process the labels in order;
any raised error (only the broadcast error is reachable) propagates. -/
def create_ground_truth_maps (ground_truth : List Label)
    (width_img : ℕ := 1920) (height_img : ℕ := 1280) :
    Except String (ℕ → ℕ → ℕ → ℚ) :=
  List.foldlM (processLabel height_img width_img) (fun _ _ _ => 0) ground_truth

/-- Whether a call returned normally (no exception). -/
def exceptIsOk {α : Type} (e : Except String α) : Bool :=
  match e with
  | Except.ok _ => true
  | Except.error _ => false

/-- Python `int(q)`: truncation toward zero of a rational. -/
def pyInt (q : ℚ) : ℤ :=
  q.num.tdiv q.den

/-- One raw lidar sample `[x, y, d]` as produced by
`extract_lidar_array_from_point_cloud`: pixel coordinates and range, all
floats. -/
structure LidarPoint where
  x : ℚ
  y : ℚ
  d : ℚ

/-- `min_y = int(y - shift); if min_y < 0: min_y = 0` (same for x). -/
def splat_lo (v : ℚ) (shift : ℕ) : ℤ :=
  if pyInt (v - (shift : ℚ)) < 0 then 0 else pyInt (v - (shift : ℚ))

/-- `max_y = int(y + shift + 1); if max_y > size - 1: max_y = size - 1`
(same for x with the width).  Note the *exclusive* slice bound is clamped to
`size - 1`, not `size`. -/
def splat_hi (v : ℚ) (shift : ℕ) (size : ℕ) : ℤ :=
  if pyInt (v + (shift : ℚ) + 1) > (size : ℤ) - 1 then (size : ℤ) - 1
  else pyInt (v + (shift : ℚ) + 1)

/-- One iteration of the splat loop:
`range_tensor[0, min_y:max_y, min_x:max_x] = d`. -/
def splat_step (H W shift : ℕ) (g : ℕ → ℕ → ℚ) (p : LidarPoint) :
    ℕ → ℕ → ℚ :=
  fun r c =>
    if splat_lo p.y shift ≤ (r : ℤ) ∧ (r : ℤ) < splat_hi p.y shift H ∧
        splat_lo p.x shift ≤ (c : ℤ) ∧ (c : ℤ) < splat_hi p.x shift W then
      p.d
    else g r c

/-- `lidar_array_to_image_like_tensor(lidar_array, shape=(1,H,W),
kernel_size)`: `shift = (kernel_size - 1) // 2`, grid initialized to `-1.0`,
samples written in sequence order (the single channel dimension is dropped;
cell access is `(row, col)`). -/
def lidar_array_to_image_like_tensor (lidar_array : List LidarPoint)
    (H : ℕ := 1280) (W : ℕ := 1920) (kernel_size : ℕ := 5) : ℕ → ℕ → ℚ :=
  List.foldl (splat_step H W ((kernel_size - 1) / 2)) (fun _ _ => -1)
    lidar_array

/-- A single-channel 2-D tensor: tracked spatial dimensions plus a total
value function (row, col). -/
structure Grid where
  h : ℕ
  w : ℕ
  val : ℕ → ℕ → ℚ

/-- An elementwise (masked, in-place) update of a tensor: every masked update
in the source reads only the cell it writes, so it is a pure map. -/
def gridMap (f : ℚ → ℚ) (g : Grid) : Grid :=
  ⟨g.h, g.w, fun r c => f (g.val r c)⟩

/-- Output length of one spatial axis of `torch.nn.MaxPool2d`/`AvgPool2d`
(no padding, no dilation): `(n - k) / s + 1` with integer division. -/
def poolOut (n k s : ℕ) : ℕ :=
  (n - k) / s + 1

/-- Maximum over the `kh × kw` pooling window anchored at `(r0, c0)`. -/
def windowMax (f : ℕ → ℕ → ℚ) (r0 c0 kh kw : ℕ) : ℚ :=
  (List.range kh).foldl
    (fun acc di =>
      (List.range kw).foldl
        (fun acc2 dj => max acc2 (f (r0 + di) (c0 + dj))) acc)
    (f r0 c0)

/-- Sum over the `kh × kw` pooling window anchored at `(r0, c0)`. -/
def windowSum (f : ℕ → ℕ → ℚ) (r0 c0 kh kw : ℕ) : ℚ :=
  (List.range kh).foldl
    (fun acc di =>
      (List.range kw).foldl
        (fun acc2 dj => acc2 + f (r0 + di) (c0 + dj)) acc)
    0

/-- `torch.nn.MaxPool2d((kh, kw), stride=(sh, sw))` on one channel. -/
def maxPool2d (g : Grid) (kh kw sh sw : ℕ) : Grid :=
  ⟨poolOut g.h kh sh, poolOut g.w kw sw,
    fun i j => windowMax g.val (i * sh) (j * sw) kh kw⟩

/-- `torch.nn.AvgPool2d((kh, kw), stride=(sh, sw))` on one channel. -/
def avgPool2d (g : Grid) (kh kw sh sw : ℕ) : Grid :=
  ⟨poolOut g.h kh sh, poolOut g.w kw sw,
    fun i j => windowSum g.val (i * sh) (j * sw) kh kw / (kh * kw)⟩

/-- `avgpool_tensor`: `torch.nn.AvgPool2d(10, stride=10)` (per channel). -/
def avgpool_tensor (img_tensor : Grid) : Grid :=
  avgPool2d img_tensor 10 10 10 10

/-- `maxpool_tensor`: `torch.nn.MaxPool2d(10, stride=10)` (per channel). -/
def maxpool_tensor (img_tensor : Grid) : Grid :=
  maxPool2d img_tensor 10 10 10 10

/-- `lidar_tensor[lidar_tensor > 75] = 75` on one cell. -/
def clipStep (v : ℚ) : ℚ :=
  if 75 < v then 75 else v

/-- `lidar_tensor[lidar_tensor == -1.0] = 76` on one cell. -/
def sentinelStep (v : ℚ) : ℚ :=
  if v = -1 then 76 else v

/-- `lidar_tensor[lidar_tensor <= 25] = lidar_tensor[...] * -6.2 + 255`
on one cell (`-6.2 = -31/5` exactly). -/
def nearStep (v : ℚ) : ℚ :=
  if v ≤ 25 then v * (-31 / 5) + 255 else v

/-- `lidar_tensor[(lidar_tensor > 25) & (lidar_tensor <= 76)] =
lidar_tensor[...] * -2 + 150` on one cell. -/
def farStep (v : ℚ) : ℚ :=
  if 25 < v ∧ v ≤ 76 then v * (-2) + 150 else v

/-- `lidar_tensor[lidar_tensor < 0] = 0` on one cell. -/
def clampStep (v : ℚ) : ℚ :=
  if v < 0 then 0 else v

/-- `torch.nn.functional.pad(t, pad=(0,0,0,1), mode='replicate')`: append one
row at the bottom replicating the last row. -/
def padReplicateBottom (g : Grid) : Grid :=
  ⟨g.h + 1, g.w, fun r c => g.val (min r (g.h - 1)) c⟩

/-- `pool_lidar_tensor`: clip to 75, remap the `-1.0` sentinel to 76, apply
the two masked re-encoding updates in sequence, max-pool with kernel
`(20,10)` and stride `(10,10)`, replicate-pad one bottom row, clamp negative
residues to 0. -/
def pool_lidar_tensor (lidar_tensor : Grid) : Grid :=
  gridMap clampStep
    (padReplicateBottom
      (maxPool2d
        (gridMap farStep
          (gridMap nearStep
            (gridMap sentinelStep
              (gridMap clipStep lidar_tensor))))
        20 10 10 10))

/-- Number of in-range cells of an `H × W` grid satisfying a boolean
predicate: `torch.sum` of a boolean mask over the spatial axes. -/
def countCells (H W : ℕ) (p : ℕ → ℕ → Bool) : ℕ :=
  ((List.range H).map fun r => ((List.range W).filter (p r)).length).sum

/-- `compute_IoU_whole_img_per_class` at class channel `k` for one instance:
binarize both maps by `value >= threshold`, count intersection and union over
the `H × W` spatial extent, divide; the code's `iou[isnan(iou)] = 0` fix-up
is the `union = 0` branch (the only way the division yields NaN). -/
def compute_IoU_whole_img_per_class (ground_truth_map estimated_heat_map :
    ℕ → ℕ → ℕ → ℚ) (H W : ℕ) (threshold : ℚ) (k : ℕ) : ℚ :=
  let inter := countCells H W fun r c =>
    decide (threshold ≤ estimated_heat_map k r c) &&
      decide (threshold ≤ ground_truth_map k r c)
  let uni := countCells H W fun r c =>
    decide (threshold ≤ estimated_heat_map k r c) ||
      decide (threshold ≤ ground_truth_map k r c)
  if uni = 0 then 0 else (inter : ℚ) / (uni : ℚ)

/-- `compute_IoU_whole_img_batch`: per-instance per-class scores (rows beyond
the zipped length keep the allocated zeros), then `torch.mean` over the batch
axis, i.e. division by the ground-truth batch length. -/
def compute_IoU_whole_img_batch (gt_batch est_batch : List (ℕ → ℕ → ℕ → ℚ))
    (H W : ℕ) (threshold : ℚ) (k : ℕ) : ℚ :=
  ((gt_batch.zip est_batch).map fun ge =>
      compute_IoU_whole_img_per_class ge.1 ge.2 H W threshold k).sum /
    (gt_batch.length : ℚ)

/-- Modelled from the spec: the single-pass piecewise form of the range
re-encoding (spec §4.1 steps 3-4), to be compared with the two sequential
masked updates `nearStep` then `farStep` of `pool_lidar_tensor`. -/
def reencode_piecewise (v : ℚ) : ℚ :=
  if v ≤ 25 then v * (-31 / 5) + 255
  else if v ≤ 76 then v * (-2) + 150
  else v

/-! ## Helper lemmas -/

lemma farStep_nearStep_eq_piecewise (v : ℚ) :
    farStep (nearStep v) = reencode_piecewise v := by
  unfold nearStep farStep reencode_piecewise
  by_cases h1 : v ≤ 25
  · rw [if_pos h1, if_pos h1, if_neg (fun hc => by linarith [hc.2])]
  · rw [if_neg h1, if_neg h1]
    by_cases h2 : v ≤ 76
    · rw [if_pos ⟨by linarith, h2⟩, if_pos h2]
    · rw [if_neg (fun hc => h2 hc.2), if_neg h2]

lemma nearStep_of_le {v : ℚ} (h : v ≤ 25) :
    nearStep v = v * (-31 / 5) + 255 := if_pos h

lemma nearStep_lower {v : ℚ} (h : v ≤ 25) : 100 ≤ nearStep v := by
  rw [nearStep_of_le h]; linarith

/-- Generic fold invariant: a fold whose step keeps the accumulator at `v`
ends at `v`. -/
lemma foldl_eq_of_inv {β : Type} (v : ℚ) :
    ∀ (l : List β) (a : ℚ) (g : ℚ → β → ℚ), a = v →
      (∀ acc x, acc = v → x ∈ l → g acc x = v) → l.foldl g a = v := by
  intro l
  induction l with
  | nil => intro a g ha _; simpa using ha
  | cons x xs ih =>
    intro a g ha hg
    simp only [List.foldl_cons]
    exact ih _ g (hg a x ha (by simp))
      (fun acc y hy hmem => hg acc y hy (by simp [hmem]))

/-- A pooling window all of whose cells hold `v` max-pools to `v`. -/
lemma windowMax_const (f : ℕ → ℕ → ℚ) (r0 c0 kh kw : ℕ) (v : ℚ)
    (hkh : 0 < kh) (hkw : 0 < kw)
    (hf : ∀ di dj, di < kh → dj < kw → f (r0 + di) (c0 + dj) = v) :
    windowMax f r0 c0 kh kw = v := by
  have hinit : f r0 c0 = v := by
    have := hf 0 0 hkh hkw
    simpa using this
  unfold windowMax
  refine foldl_eq_of_inv v _ _ _ hinit ?_
  intro acc di hacc hdi
  rw [List.mem_range] at hdi
  refine foldl_eq_of_inv v _ _ _ hacc ?_
  intro acc2 dj hacc2 hdj
  rw [List.mem_range] at hdj
  rw [hacc2, hf di dj hdi hdj, max_self]

/-! ## Claim theorems -/

/-- C3: in the lidar re-encoding step (after the clip of values above 75 and
the remap of the `-1.0` sentinel to 76, i.e. on the values the two masked
updates actually see), every cell with `d ∈ [0,25]` is re-encoded to
`-6.2 * d + 255 = d * (-31/5) + 255`, strictly decreasing in `d`; every cell
with `d ∈ (25,76]` is re-encoded to `-2 * d + 150`; the near band maps
`[0,25)` into `(100,255]`, and the value at `d = 25` is exactly 100, meeting
the far-band ceiling. -/
theorem C3_reencode_bands :
    ∀ d : ℚ,
      (0 ≤ d → d ≤ 25 → farStep (nearStep d) = d * (-31 / 5) + 255) ∧
      (25 < d → d ≤ 76 → farStep (nearStep d) = d * (-2) + 150) ∧
      (∀ d2 : ℚ, 0 ≤ d → d < d2 → d2 ≤ 25 →
        farStep (nearStep d2) < farStep (nearStep d)) ∧
      (0 ≤ d → d < 25 →
        100 < farStep (nearStep d) ∧ farStep (nearStep d) ≤ 255) ∧
      farStep (nearStep 25) = 100 := by
  have hnear : ∀ v : ℚ, v ≤ 25 → farStep (nearStep v) = v * (-31 / 5) + 255 := by
    intro v hv
    rw [farStep_nearStep_eq_piecewise, reencode_piecewise, if_pos hv]
  have hfar : ∀ v : ℚ, 25 < v → v ≤ 76 → farStep (nearStep v) = v * (-2) + 150 := by
    intro v hv1 hv2
    rw [farStep_nearStep_eq_piecewise, reencode_piecewise,
      if_neg (by linarith), if_pos hv2]
  intro d
  refine ⟨fun _ hd => hnear d hd, fun h1 h2 => hfar d h1 h2, ?_, ?_, ?_⟩
  · intro d2 hd0 hlt hle
    rw [hnear d (by linarith), hnear d2 hle]
    linarith
  · intro hd0 hd25
    rw [hnear d (by linarith)]
    constructor <;> linarith
  · rw [hnear 25 (by norm_num)]
    norm_num

/-- C3 witness: the near-band formula, the far-band formula and the band
boundaries at concrete distances. -/
theorem C3_reencode_bands_witness :
    ((0 : ℚ) ≤ 10 ∧ (10 : ℚ) ≤ 25 ∧
      farStep (nearStep 10) = 10 * (-31 / 5) + 255) ∧
    ((25 : ℚ) < 30 ∧ (30 : ℚ) ≤ 76 ∧
      farStep (nearStep 30) = 30 * (-2) + 150) := by
  refine ⟨⟨by norm_num, by norm_num, (C3_reencode_bands 10).1 (by norm_num) (by norm_num)⟩,
    ⟨by norm_num, by norm_num, (C3_reencode_bands 30).2.1 (by norm_num) (by norm_num)⟩⟩

/-- C8: the two sequential in-place masked updates of `pool_lidar_tensor`
(`nearStep` then `farStep`) applied to a grid are equal, cell by cell, to a
single application of the piecewise re-encoding function to each original
cell value; the reason is that a near-band output (`>= 100` for inputs
`<= 25`) never satisfies the far-band selection mask `25 < v ∧ v <= 76`. -/
theorem C8_reencode_single_pass :
    (∀ (g : Grid) (r c : ℕ),
      (gridMap farStep (gridMap nearStep g)).val r c =
        reencode_piecewise (g.val r c)) ∧
    (∀ v : ℚ, v ≤ 25 →
      100 ≤ nearStep v ∧ ¬(25 < nearStep v ∧ nearStep v ≤ 76)) := by
  constructor
  · intro g r c
    simp only [gridMap]
    exact farStep_nearStep_eq_piecewise (g.val r c)
  · intro v hv
    have h1 : 100 ≤ nearStep v := nearStep_lower hv
    exact ⟨h1, fun hc => by linarith [hc.2]⟩

/-- C8 witness: the masked-update composition agrees with the piecewise
re-encoding on a concrete grid, and a concrete near-band value escapes the
far-band mask. -/
theorem C8_reencode_single_pass_witness :
    (gridMap farStep (gridMap nearStep ⟨1, 1, fun _ _ => 5⟩)).val 0 0 =
      reencode_piecewise 5 ∧
    ((5 : ℚ) ≤ 25 ∧ 100 ≤ nearStep 5 ∧
      ¬(25 < nearStep 5 ∧ nearStep 5 ≤ 76)) := by
  exact ⟨C8_reencode_single_pass.1 ⟨1, 1, fun _ _ => 5⟩ 0 0,
    by norm_num, C8_reencode_single_pass.2 5 (by norm_num)⟩

/-- Projection lemmas for the grid combinators (all definitional). -/
lemma gridMap_h (f : ℚ → ℚ) (q : Grid) : (gridMap f q).h = q.h := rfl

lemma gridMap_w (f : ℚ → ℚ) (q : Grid) : (gridMap f q).w = q.w := rfl

lemma gridMap_val (f : ℚ → ℚ) (q : Grid) (r c : ℕ) :
    (gridMap f q).val r c = f (q.val r c) := rfl

lemma maxPool2d_h (q : Grid) (kh kw sh sw : ℕ) :
    (maxPool2d q kh kw sh sw).h = poolOut q.h kh sh := rfl

lemma padReplicateBottom_val (q : Grid) (r c : ℕ) :
    (padReplicateBottom q).val r c = q.val (min r (q.h - 1)) c := rfl

/-- C5: any pooling window of `pool_lidar_tensor` whose input cells all hold
the no-return sentinel `-1.0` yields exactly 0 in the downsampled tensor: the
sentinel re-encodes to `-2`, survives max pooling over the all-sentinel
window, and the final negative clamp sets it to 0. -/
theorem C5_sentinel_pool_zero (g : Grid) (i j : ℕ)
    (hi : i < poolOut g.h 20 10)
    (hwin : ∀ di dj, di < 20 → dj < 10 →
      g.val (i * 10 + di) (j * 10 + dj) = -1) :
    (pool_lidar_tensor g).val i j = 0 := by
  unfold pool_lidar_tensor
  simp only [gridMap, padReplicateBottom, maxPool2d]
  have hmin : min i (poolOut g.h 20 10 - 1) = i := by omega
  rw [hmin]
  rw [windowMax_const _ _ _ _ _ (-2) (by norm_num) (by norm_num) ?_]
  · norm_num [clampStep]
  · intro di dj hdi hdj
    rw [hwin di dj hdi hdj]
    norm_num [clipStep, sentinelStep, nearStep, farStep]

/-- C5 witness: a 20×10 all-sentinel grid pools to exactly 0. -/
theorem C5_sentinel_pool_zero_witness :
    (0 < poolOut (Grid.mk 20 10 fun _ _ => -1).h 20 10 ∧
      ∀ di dj, di < 20 → dj < 10 →
        (Grid.mk 20 10 fun _ _ => -1).val (0 * 10 + di) (0 * 10 + dj) = -1) ∧
    (pool_lidar_tensor ⟨20, 10, fun _ _ => -1⟩).val 0 0 = 0 := by
  refine ⟨⟨by norm_num [poolOut], fun _ _ _ _ => rfl⟩, ?_⟩
  exact C5_sentinel_pool_zero ⟨20, 10, fun _ _ => -1⟩ 0 0
    (by norm_num [poolOut]) (fun _ _ _ _ => rfl)

/-- C6: on a full-resolution `1280 × 1920` grid, the max pooling of
`pool_lidar_tensor` (kernel `(20,10)`, stride `(10,10)`) produces height
`127 = (1280-20)/10 + 1` and width `192 = (1920-10)/10 + 1`, and exactly one
row is appended at the bottom replicating the last pooled row, so the result
has spatial shape `(128, 192)` (the single channel dimension is untouched). -/
theorem C6_pool_lidar_shape (g : Grid) (hh : g.h = 1280) (hw : g.w = 1920) :
    poolOut 1280 20 10 = 127 ∧ poolOut 1920 10 10 = 192 ∧
    (pool_lidar_tensor g).h = 128 ∧ (pool_lidar_tensor g).w = 192 ∧
    ∀ j, (pool_lidar_tensor g).val 127 j = (pool_lidar_tensor g).val 126 j := by
  have eh : (pool_lidar_tensor g).h = poolOut g.h 20 10 + 1 := rfl
  have ew : (pool_lidar_tensor g).w = poolOut g.w 10 10 := rfl
  have ev : ∀ r j, (pool_lidar_tensor g).val r j =
      clampStep
        ((padReplicateBottom
          (maxPool2d
            (gridMap farStep (gridMap nearStep
              (gridMap sentinelStep (gridMap clipStep g)))) 20 10 10 10)).val
          r j) :=
    fun _ _ => rfl
  refine ⟨by norm_num [poolOut], by norm_num [poolOut], ?_, ?_, ?_⟩
  · rw [eh, hh]; norm_num [poolOut]
  · rw [ew, hw]; norm_num [poolOut]
  · intro j
    rw [ev 127 j, ev 126 j, padReplicateBottom_val, padReplicateBottom_val,
      maxPool2d_h, gridMap_h, gridMap_h, gridMap_h, gridMap_h, hh]
    norm_num [poolOut]

/-- C6 witness: the shape facts evaluated on a concrete full-resolution
grid. -/
theorem C6_pool_lidar_shape_witness :
    ((Grid.mk 1280 1920 fun _ _ => 0).h = 1280 ∧
      (Grid.mk 1280 1920 fun _ _ => 0).w = 1920) ∧
    (poolOut 1280 20 10 = 127 ∧ poolOut 1920 10 10 = 192 ∧
      (pool_lidar_tensor ⟨1280, 1920, fun _ _ => 0⟩).h = 128 ∧
      (pool_lidar_tensor ⟨1280, 1920, fun _ _ => 0⟩).w = 192 ∧
      ∀ j, (pool_lidar_tensor ⟨1280, 1920, fun _ _ => 0⟩).val 127 j =
        (pool_lidar_tensor ⟨1280, 1920, fun _ _ => 0⟩).val 126 j) := by
  exact ⟨⟨rfl, rfl⟩,
    C6_pool_lidar_shape ⟨1280, 1920, fun _ _ => 0⟩ rfl rfl⟩

/-- C9: for the same frame (original image size 1280×1920), the
low-resolution lidar tensor (`pool_lidar_tensor`), the low-resolution heat
map (`maxpool_tensor`, kernel 10, stride 10) and the downsampled image
(`avgpool_tensor`, kernel 10, stride 10) all have the identical spatial
shape `128 × 192`, each drawn from the same stride-10 window-anchor grid. -/
theorem C9_shared_shapes (img hm ld : Grid)
    (h1 : img.h = 1280) (h2 : img.w = 1920)
    (h3 : hm.h = 1280) (h4 : hm.w = 1920)
    (h5 : ld.h = 1280) (h6 : ld.w = 1920) :
    (avgpool_tensor img).h = 128 ∧ (avgpool_tensor img).w = 192 ∧
    (maxpool_tensor hm).h = 128 ∧ (maxpool_tensor hm).w = 192 ∧
    (pool_lidar_tensor ld).h = 128 ∧ (pool_lidar_tensor ld).w = 192 := by
  have e1 : (avgpool_tensor img).h = poolOut img.h 10 10 := rfl
  have e2 : (avgpool_tensor img).w = poolOut img.w 10 10 := rfl
  have e3 : (maxpool_tensor hm).h = poolOut hm.h 10 10 := rfl
  have e4 : (maxpool_tensor hm).w = poolOut hm.w 10 10 := rfl
  have e5 : (pool_lidar_tensor ld).h = poolOut ld.h 20 10 + 1 := rfl
  have e6 : (pool_lidar_tensor ld).w = poolOut ld.w 10 10 := rfl
  refine ⟨?_, ?_, ?_, ?_, ?_, ?_⟩
  · rw [e1, h1]; norm_num [poolOut]
  · rw [e2, h2]; norm_num [poolOut]
  · rw [e3, h3]; norm_num [poolOut]
  · rw [e4, h4]; norm_num [poolOut]
  · rw [e5, h5]; norm_num [poolOut]
  · rw [e6, h6]; norm_num [poolOut]

/-- C9 witness: the three downsamplers evaluated on concrete full-resolution
tensors share the spatial shape `(128, 192)`. -/
theorem C9_shared_shapes_witness :
    ((Grid.mk 1280 1920 fun _ _ => 0).h = 1280 ∧
      (Grid.mk 1280 1920 fun _ _ => 0).w = 1920) ∧
    ((avgpool_tensor ⟨1280, 1920, fun _ _ => 0⟩).h = 128 ∧
      (avgpool_tensor ⟨1280, 1920, fun _ _ => 0⟩).w = 192 ∧
      (maxpool_tensor ⟨1280, 1920, fun _ _ => 0⟩).h = 128 ∧
      (maxpool_tensor ⟨1280, 1920, fun _ _ => 0⟩).w = 192 ∧
      (pool_lidar_tensor ⟨1280, 1920, fun _ _ => 0⟩).h = 128 ∧
      (pool_lidar_tensor ⟨1280, 1920, fun _ _ => 0⟩).w = 192) := by
  exact ⟨⟨rfl, rfl⟩,
    C9_shared_shapes ⟨1280, 1920, fun _ _ => 0⟩ ⟨1280, 1920, fun _ _ => 0⟩
      ⟨1280, 1920, fun _ _ => 0⟩ rfl rfl rfl rfl rfl rfl⟩

/-- C7: the pedestrian confidence template over a `(h, w)` all-ones box
(fractions by integer division): rows `0..h/5` of the corner column bands
(`0..w/4` and `3*(w/4)..w`) hold 0.3, rows `3*(h/5)..h` of those bands hold
0.5, rows `3*(h/5)..h` of the center band `w/4..3*(w/4)` hold 0.75, every
other cell keeps 1.0; concretely for `h = 10`, `w = 8`: cell `(0,0)` is 0.3,
`(9,0)` is 0.5, `(9,4)` is 0.75 and `(5,4)` is 1.0. -/
theorem C7_pedestrian_template (h w r c : ℕ) (hr : r < h) (hc : c < w) :
    (create_ground_truth_bb_pedestrian h w r c =
      if r < h / 5 ∧ (c < w / 4 ∨ (w / 4) * 3 ≤ c) then 3 / 10
      else if (h / 5) * 3 ≤ r ∧ (c < w / 4 ∨ (w / 4) * 3 ≤ c) then 1 / 2
      else if (h / 5) * 3 ≤ r ∧ w / 4 ≤ c ∧ c < (w / 4) * 3 then 3 / 4
      else 1) ∧
    (create_ground_truth_bb_pedestrian 10 8 0 0 = 3 / 10 ∧
      create_ground_truth_bb_pedestrian 10 8 9 0 = 1 / 2 ∧
      create_ground_truth_bb_pedestrian 10 8 9 4 = 3 / 4 ∧
      create_ground_truth_bb_pedestrian 10 8 5 4 = 1) := by
  constructor
  · simp only [create_ground_truth_bb_pedestrian, regionWrite]
    split_ifs <;> first | rfl | omega
  · refine ⟨?_, ?_, ?_, ?_⟩ <;>
      norm_num [create_ground_truth_bb_pedestrian, regionWrite]

/-- C7 witness: the template characterization applied at the top-left corner
of a 10×8 box. -/
theorem C7_pedestrian_template_witness :
    ((0 : ℕ) < 10 ∧ (0 : ℕ) < 8) ∧
    (create_ground_truth_bb_pedestrian 10 8 0 0 =
      if 0 < 10 / 5 ∧ ((0 : ℕ) < 8 / 4 ∨ (8 / 4) * 3 ≤ 0) then (3 : ℚ) / 10
      else if (10 / 5) * 3 ≤ 0 ∧ ((0 : ℕ) < 8 / 4 ∨ (8 / 4) * 3 ≤ 0) then 1 / 2
      else if (10 / 5) * 3 ≤ 0 ∧ 8 / 4 ≤ 0 ∧ (0 : ℕ) < (8 / 4) * 3 then 3 / 4
      else 1) := by
  exact ⟨⟨by norm_num, by norm_num⟩,
    (C7_pedestrian_template 10 8 0 0 (by norm_num) (by norm_num)).1⟩

/-- Cell counts are monotone in the predicate (on in-range cells). -/
lemma countCells_mono (H W : ℕ) (p q : ℕ → ℕ → Bool)
    (hpq : ∀ r c, r < H → c < W → p r c = true → q r c = true) :
    countCells H W p ≤ countCells H W q := by
  unfold countCells
  apply List.sum_le_sum
  intro r hr
  rw [List.mem_range] at hr
  rw [← List.countP_eq_length_filter, ← List.countP_eq_length_filter]
  apply List.countP_mono_left
  intro c hc
  rw [List.mem_range] at hc
  exact hpq r c hr hc

/-- A predicate false on every in-range cell counts 0 cells. -/
lemma countCells_eq_zero (H W : ℕ) (p : ℕ → ℕ → Bool)
    (hp : ∀ r c, r < H → c < W → p r c = false) :
    countCells H W p = 0 := by
  unfold countCells
  apply List.sum_eq_zero
  intro x hx
  rw [List.mem_map] at hx
  obtain ⟨r, hr, rfl⟩ := hx
  rw [List.mem_range] at hr
  rw [List.length_eq_zero, List.filter_eq_nil_iff]
  intro c hc
  rw [List.mem_range] at hc
  simp [hp r c hr hc]

/-- A predicate true on every in-range cell counts all `H * W` cells. -/
lemma countCells_eq_total (H W : ℕ) (p : ℕ → ℕ → Bool)
    (hp : ∀ r c, r < H → c < W → p r c = true) :
    countCells H W p = H * W := by
  unfold countCells
  have hrow : ∀ r ∈ List.range H,
      ((List.range W).filter (p r)).length = W := by
    intro r hr
    rw [List.mem_range] at hr
    rw [List.filter_eq_self.mpr fun c hc =>
      hp r c hr (List.mem_range.mp hc)]
    exact List.length_range W
  rw [List.map_congr_left hrow]
  simp [List.map_const, List.sum_replicate, Nat.smul_one_eq_cast]

/-- C4: for one instance, the overlap metric binarizes the ground-truth and
estimated maps by `value >= threshold` and returns, per class, intersection
over union, a score in `[0,1]`; a zero union yields exactly score 0 (never an
indeterminate value and not an error), and a ground truth entirely above
threshold with an estimate entirely below it yields score 0 through
intersection 0 over the positive union `H * W`, not through the degenerate
case. -/
theorem C4_overlap_metric (gt est : ℕ → ℕ → ℕ → ℚ) (H W : ℕ) (t : ℚ)
    (k : ℕ) :
    (0 ≤ compute_IoU_whole_img_per_class gt est H W t k ∧
      compute_IoU_whole_img_per_class gt est H W t k ≤ 1) ∧
    (countCells H W (fun r c =>
        decide (t ≤ est k r c) || decide (t ≤ gt k r c)) = 0 →
      compute_IoU_whole_img_per_class gt est H W t k = 0) ∧
    ((∀ r c, r < H → c < W → t ≤ gt k r c) →
     (∀ r c, r < H → c < W → est k r c < t) →
      countCells H W (fun r c =>
        decide (t ≤ est k r c) && decide (t ≤ gt k r c)) = 0 ∧
      countCells H W (fun r c =>
        decide (t ≤ est k r c) || decide (t ≤ gt k r c)) = H * W ∧
      compute_IoU_whole_img_per_class gt est H W t k = 0) := by
  have hmono : countCells H W (fun r c =>
        decide (t ≤ est k r c) && decide (t ≤ gt k r c)) ≤
      countCells H W (fun r c =>
        decide (t ≤ est k r c) || decide (t ≤ gt k r c)) := by
    apply countCells_mono
    intro r c _ _ hb
    rw [Bool.and_eq_true] at hb
    rw [Bool.or_eq_true]
    exact Or.inl hb.1
  refine ⟨?_, ?_, ?_⟩
  · simp only [compute_IoU_whole_img_per_class]
    split_ifs with hu
    · exact ⟨le_refl 0, zero_le_one⟩
    · constructor
      · positivity
      · rw [div_le_one (by positivity)]
        exact_mod_cast hmono
  · intro hu
    simp only [compute_IoU_whole_img_per_class]
    rw [if_pos hu]
  · intro hgt hest
    have hinter : countCells H W (fun r c =>
        decide (t ≤ est k r c) && decide (t ≤ gt k r c)) = 0 := by
      apply countCells_eq_zero
      intro r c hr hc
      have : ¬ t ≤ est k r c := not_le.mpr (hest r c hr hc)
      simp [this]
    have huni : countCells H W (fun r c =>
        decide (t ≤ est k r c) || decide (t ≤ gt k r c)) = H * W := by
      apply countCells_eq_total
      intro r c hr hc
      simp [hgt r c hr hc]
    refine ⟨hinter, huni, ?_⟩
    simp only [compute_IoU_whole_img_per_class]
    split_ifs with hu
    · rfl
    · rw [hinter]
      norm_num

/-- C4 witness: the spec's example — all-ones 4×4 ground truth, all-zeros
4×4 estimate, threshold 0.5 — gives intersection 0, union 16 and score 0
through the non-degenerate path. -/
theorem C4_overlap_metric_witness :
    ((∀ r c : ℕ, r < 4 → c < 4 → (1 / 2 : ℚ) ≤ (fun _ _ _ => 1 : ℕ → ℕ → ℕ → ℚ) 0 r c) ∧
      (∀ r c : ℕ, r < 4 → c < 4 → (fun _ _ _ => 0 : ℕ → ℕ → ℕ → ℚ) 0 r c < (1 / 2 : ℚ))) ∧
    (countCells 4 4 (fun r c =>
        decide ((1 / 2 : ℚ) ≤ (fun _ _ _ => 0 : ℕ → ℕ → ℕ → ℚ) 0 r c) &&
          decide ((1 / 2 : ℚ) ≤ (fun _ _ _ => 1 : ℕ → ℕ → ℕ → ℚ) 0 r c)) = 0 ∧
      countCells 4 4 (fun r c =>
        decide ((1 / 2 : ℚ) ≤ (fun _ _ _ => 0 : ℕ → ℕ → ℕ → ℚ) 0 r c) ||
          decide ((1 / 2 : ℚ) ≤ (fun _ _ _ => 1 : ℕ → ℕ → ℕ → ℚ) 0 r c)) = 4 * 4 ∧
      compute_IoU_whole_img_per_class (fun _ _ _ => 1) (fun _ _ _ => 0)
        4 4 (1 / 2) 0 = 0) := by
  refine ⟨⟨fun r c _ _ => by norm_num, fun r c _ _ => by norm_num⟩, ?_⟩
  exact (C4_overlap_metric (fun _ _ _ => 1) (fun _ _ _ => 0) 4 4 (1 / 2) 0).2.2
    (fun r c _ _ => by norm_num) (fun r c _ _ => by norm_num)

/-- Every cell of the pedestrian template lies in `[0, 1]`. -/
lemma create_ground_truth_bb_pedestrian_bounds (h w r c : ℕ) :
    0 ≤ create_ground_truth_bb_pedestrian h w r c ∧
      create_ground_truth_bb_pedestrian h w r c ≤ 1 := by
  simp only [create_ground_truth_bb_pedestrian, regionWrite]
  split_ifs <;> norm_num

/-- For a recognized class the box template is produced normally and all its
cells lie in `[0, 1]`. -/
lemma create_ground_truth_bb_ok (t : ℤ) (ht : t = 1 ∨ t = 2 ∨ t = 4)
    (w h : ℕ) :
    ∃ box, create_ground_truth_bb t w h = Except.ok box ∧
      ∀ r c, 0 ≤ box r c ∧ box r c ≤ 1 := by
  rcases ht with h1 | h2 | h4
  · subst h1
    exact ⟨_, rfl, fun r c => by norm_num⟩
  · subst h2
    exact ⟨_, rfl, fun r c => create_ground_truth_bb_pedestrian_bounds h w r c⟩
  · subst h4
    exact ⟨_, rfl, fun r c => by norm_num⟩

/-- A non-negative slice endpoint within the axis resolves to itself. -/
lemma sliceIdx_of_nonneg_le (a : ℤ) (n : ℕ) (h0 : 0 ≤ a) (hn : a ≤ n) :
    sliceIdx a n = a.toNat := by
  unfold sliceIdx
  rw [if_neg (by omega)]
  omega

/-- An in-bounds box assignment succeeds and keeps all cells in `[0, 1]`
when both the written template and the previous map are in `[0, 1]`. -/
lemma assignSlice_ok (m box : ℕ → ℕ → ℚ) (y x : ℤ) (h w H W : ℕ)
    (hy : 0 ≤ y) (hx : 0 ≤ x) (hyh : y + h ≤ H) (hxw : x + w ≤ W)
    (hbox : ∀ r c, 0 ≤ box r c ∧ box r c ≤ 1)
    (hm : ∀ r c, 0 ≤ m r c ∧ m r c ≤ 1) :
    ∃ g, assignSlice m y h x w box H W = Except.ok g ∧
      ∀ r c, 0 ≤ g r c ∧ g r c ≤ 1 := by
  have hr0 : sliceIdx y H = y.toNat :=
    sliceIdx_of_nonneg_le y H hy (by omega)
  have hr1 : sliceIdx (y + h) H = (y + h).toNat :=
    sliceIdx_of_nonneg_le _ H (by omega) (by omega)
  have hc0 : sliceIdx x W = x.toNat :=
    sliceIdx_of_nonneg_le x W hx (by omega)
  have hc1 : sliceIdx (x + w) W = (x + w).toNat :=
    sliceIdx_of_nonneg_le _ W (by omega) (by omega)
  have hcond : (h = sliceIdx (y + h) H - sliceIdx y H ∨ h = 1) ∧
      (w = sliceIdx (x + w) W - sliceIdx x W ∨ w = 1) := by
    rw [hr0, hr1, hc0, hc1]
    exact ⟨Or.inl (by omega), Or.inl (by omega)⟩
  simp only [assignSlice]
  rw [if_pos hcond]
  refine ⟨_, rfl, ?_⟩
  intro r c
  split_ifs <;> first | exact hbox _ _ | exact hm r c

/-- `Except` bind on a success value reduces to the continuation. -/
lemma except_bind_ok {α β : Type} (a : α) (f : α → Except String β) :
    (Except.ok a >>= f) = f a := rfl

/-- Processing a list of labels whose recognized members have in-image boxes
returns normally and keeps every cell of the 3-channel map in `[0, 1]`. -/
lemma foldlM_processLabel_ok (H W : ℕ) :
    ∀ (labels : List Label) (m : ℕ → ℕ → ℕ → ℚ),
      (∀ lab ∈ labels, (lab.type = 1 ∨ lab.type = 2 ∨ lab.type = 4) →
        0 ≤ lab.x ∧ 0 ≤ lab.y ∧ lab.x + lab.width ≤ W ∧
          lab.y + lab.height ≤ H) →
      (∀ ch r c, 0 ≤ m ch r c ∧ m ch r c ≤ 1) →
      ∃ mOut, List.foldlM (processLabel H W) m labels = Except.ok mOut ∧
        ∀ ch r c, 0 ≤ mOut ch r c ∧ mOut ch r c ≤ 1 := by
  intro labels
  induction labels with
  | nil => exact fun m _ hm => ⟨m, rfl, hm⟩
  | cons lab rest ih =>
    intro m hlabs hm
    by_cases hrec : lab.type = 1 ∨ lab.type = 2 ∨ lab.type = 4
    · obtain ⟨hx, hy, hxw, hyh⟩ := hlabs lab (by simp) hrec
      obtain ⟨box, hbox_eq, hbox⟩ :=
        create_ground_truth_bb_ok lab.type hrec lab.width lab.height
      obtain ⟨g, hg_eq, hg⟩ :=
        assignSlice_ok (m (objIdx lab.type)) box lab.y lab.x lab.height
          lab.width H W hy hx hyh hxw hbox (fun r c => hm _ r c)
      have hstep : processLabel H W m lab =
          Except.ok (fun i => if i = objIdx lab.type then g else m i) := by
        unfold processLabel
        rw [if_pos hrec, hbox_eq]
        dsimp only
        rw [hg_eq]
      rw [List.foldlM_cons, hstep, except_bind_ok]
      refine ih _ (fun l hl => hlabs l (by simp [hl])) ?_
      intro ch r c
      dsimp only
      split_ifs
      · exact hg r c
      · exact hm ch r c
    · have hstep : processLabel H W m lab = Except.ok m := by
        unfold processLabel
        rw [if_neg hrec]
      rw [List.foldlM_cons, hstep, except_bind_ok]
      exact ih m (fun l hl => hlabs l (by simp [hl])) hm

/-- C1 counterexample: a label collection containing a label of class 3 (not
VEHICLE, PEDESTRIAN or CYCLIST) makes `create_ground_truth_maps` return
normally — no "unrecognized label class" failure is propagated to its
caller, refuting the claim at this input. -/
theorem C1_unrecognized_class_counterexample :
    exceptIsOk (create_ground_truth_maps [⟨3, 10, 10, 5, 5⟩] 1920 1280) =
      true := rfl

/-- C1 (amended): `create_ground_truth_maps` silently skips every label whose
class is not 1, 2 or 4 (its loop body leaves the map unchanged and returns
normally); only the internal helper `create_ground_truth_bb` raises the
"label class does not exist" failure, and it is never called on an
unrecognized class by `create_ground_truth_maps`; a collection containing
only recognized classes with in-image boxes returns normally. -/
theorem C1_unrecognized_class_silently_skipped :
    (∀ lab : Label, lab.type ≠ 1 → lab.type ≠ 2 → lab.type ≠ 4 →
      ∀ H W m, processLabel H W m lab = Except.ok m) ∧
    (∀ t : ℤ, t ≠ 1 → t ≠ 2 → t ≠ 4 → ∀ w h,
      create_ground_truth_bb t w h =
        Except.error "the ground truth label class does not exist") ∧
    (∀ (labels : List Label) (H W : ℕ),
      (∀ lab ∈ labels, (lab.type = 1 ∨ lab.type = 2 ∨ lab.type = 4) ∧
        0 ≤ lab.x ∧ 0 ≤ lab.y ∧ lab.x + lab.width ≤ W ∧
          lab.y + lab.height ≤ H) →
      exceptIsOk (create_ground_truth_maps labels W H) = true) := by
  refine ⟨?_, ?_, ?_⟩
  · intro lab h1 h2 h3 H W m
    unfold processLabel
    rw [if_neg (by tauto)]
  · intro t h1 h2 h3 w h
    unfold create_ground_truth_bb
    rw [if_neg h2, if_neg h3, if_neg h1]
  · intro labels H W hin
    obtain ⟨m, hm, _⟩ := foldlM_processLabel_ok H W labels (fun _ _ _ => 0)
      (fun lab hl _ => (hin lab hl).2) (fun ch r c => by norm_num)
    have hmaps : create_ground_truth_maps labels W H = Except.ok m := hm
    rw [hmaps]
    rfl

/-- C1 witness: the silent skip and the helper failure evaluated at a
concrete class-3 label. -/
theorem C1_unrecognized_class_silently_skipped_witness :
    (((Label.mk 3 0 0 2 2).type ≠ 1 ∧ (Label.mk 3 0 0 2 2).type ≠ 2 ∧
        (Label.mk 3 0 0 2 2).type ≠ 4) ∧ (3 : ℤ) ≠ 1 ∧ (3 : ℤ) ≠ 2 ∧ (3 : ℤ) ≠ 4) ∧
    (∀ H W m, processLabel H W m ⟨3, 0, 0, 2, 2⟩ = Except.ok m) ∧
    (∀ w h, create_ground_truth_bb 3 w h =
      Except.error "the ground truth label class does not exist") := by
  refine ⟨⟨⟨by decide, by decide, by decide⟩, by decide, by decide, by decide⟩, ?_, ?_⟩
  · exact C1_unrecognized_class_silently_skipped.1 ⟨3, 0, 0, 2, 2⟩
      (by decide) (by decide) (by decide)
  · exact C1_unrecognized_class_silently_skipped.2.1 3
      (by decide) (by decide) (by decide)

/-- C10: ground-truth synthesis does not clip boxes: for every collection
whose recognized labels have boxes fully inside the image, the call succeeds
and every cell of the returned 3-channel map lies in `[0,1]`; a recognized
box extending past the right image edge makes `create_ground_truth_maps`
fail with the numpy broadcast (shape-mismatch) error, so in-bounds boxes are
an implicit precondition of the public interface. -/
theorem C10_inbounds_precondition :
    (∀ (labels : List Label) (H W : ℕ),
      (∀ lab ∈ labels, (lab.type = 1 ∨ lab.type = 2 ∨ lab.type = 4) →
        0 ≤ lab.x ∧ 0 ≤ lab.y ∧ lab.x + lab.width ≤ W ∧
          lab.y + lab.height ≤ H) →
      ∃ m, create_ground_truth_maps labels W H = Except.ok m ∧
        ∀ ch r c, 0 ≤ m ch r c ∧ m ch r c ≤ 1) ∧
    create_ground_truth_maps [⟨1, 1915, 0, 10, 10⟩] 1920 1280 =
      Except.error "could not broadcast" := by
  constructor
  · intro labels H W hin
    exact foldlM_processLabel_ok H W labels (fun _ _ _ => 0) hin
      (fun ch r c => by norm_num)
  · rfl

/-- C10 witness: an in-bounds pedestrian box at the origin synthesizes
normally with all confidences in `[0,1]`. -/
theorem C10_inbounds_precondition_witness :
    (∀ lab ∈ ([⟨2, 0, 0, 8, 10⟩] : List Label),
      (lab.type = 1 ∨ lab.type = 2 ∨ lab.type = 4) →
      0 ≤ lab.x ∧ 0 ≤ lab.y ∧ lab.x + lab.width ≤ (1920 : ℕ) ∧
        lab.y + lab.height ≤ (1280 : ℕ)) ∧
    (∃ m, create_ground_truth_maps [⟨2, 0, 0, 8, 10⟩] 1920 1280 =
        Except.ok m ∧ ∀ ch r c, 0 ≤ m ch r c ∧ m ch r c ≤ 1) := by
  have hin : ∀ lab ∈ ([⟨2, 0, 0, 8, 10⟩] : List Label),
      (lab.type = 1 ∨ lab.type = 2 ∨ lab.type = 4) →
      0 ≤ lab.x ∧ 0 ≤ lab.y ∧ lab.x + lab.width ≤ (1920 : ℕ) ∧
        lab.y + lab.height ≤ (1280 : ℕ) := by
    intro lab hl _
    rw [List.mem_singleton] at hl
    subst hl
    refine ⟨by norm_num, by norm_num, by norm_num, by norm_num⟩
  exact ⟨hin, C10_inbounds_precondition.1 [⟨2, 0, 0, 8, 10⟩] 1280 1920 hin⟩

/-- `int()` of an integer-valued rational is that integer. -/
lemma pyInt_intCast (n : ℤ) : pyInt (n : ℚ) = n := by
  simp [pyInt]

/-- The clamped slice bounds of the splat loop cover exactly the rows
`[iy - shift, min (iy + shift) (size - 2)]` for an integer-valued
coordinate: the exclusive upper bound is clamped to `size - 1`, so the last
valid index `size - 1` is never covered. -/
lemma splat_cover_iff (iy : ℤ) (s size r : ℕ) (hr : r < size) :
    (splat_lo (iy : ℚ) s ≤ (r : ℤ) ∧ (r : ℤ) < splat_hi (iy : ℚ) s size) ↔
    (iy - s ≤ (r : ℤ) ∧ (r : ℤ) ≤ min (iy + s) ((size : ℤ) - 2)) := by
  have h1 : pyInt ((iy : ℚ) - (s : ℕ)) = iy - s := by
    rw [show ((iy : ℚ) - ((s : ℕ) : ℚ)) = ((iy - (s : ℕ) : ℤ) : ℚ) by
      push_cast; ring]
    exact pyInt_intCast _
  have h2 : pyInt ((iy : ℚ) + (s : ℕ) + 1) = iy + s + 1 := by
    rw [show ((iy : ℚ) + ((s : ℕ) : ℚ) + 1) = ((iy + (s : ℕ) + 1 : ℤ) : ℚ) by
      push_cast; ring]
    exact pyInt_intCast _
  unfold splat_lo splat_hi
  rw [h1, h2]
  split_ifs <;> omega

/-- A single integer-coordinate sample splatted on an empty grid: the cell
value is its range value exactly on the clamped window, the sentinel
elsewhere. -/
lemma splat_single_cell (H W k : ℕ) (ix iy : ℤ) (d : ℚ) (r c : ℕ)
    (hr : r < H) (hc : c < W) :
    lidar_array_to_image_like_tensor [⟨(ix : ℚ), (iy : ℚ), d⟩] H W k r c =
      if iy - ((k - 1) / 2 : ℕ) ≤ (r : ℤ) ∧
          (r : ℤ) ≤ min (iy + ((k - 1) / 2 : ℕ)) ((H : ℤ) - 2) ∧
          ix - ((k - 1) / 2 : ℕ) ≤ (c : ℤ) ∧
          (c : ℤ) ≤ min (ix + ((k - 1) / 2 : ℕ)) ((W : ℤ) - 2) then d
      else -1 := by
  unfold lidar_array_to_image_like_tensor
  simp only [List.foldl_cons, List.foldl_nil, splat_step]
  have hcy := splat_cover_iff iy ((k - 1) / 2) H r hr
  have hcx := splat_cover_iff ix ((k - 1) / 2) W c hc
  refine if_congr ?_ rfl rfl
  constructor
  · rintro ⟨a1, a2, a3, a4⟩
    obtain ⟨b1, b2⟩ := hcy.mp ⟨a1, a2⟩
    obtain ⟨b3, b4⟩ := hcx.mp ⟨a3, a4⟩
    exact ⟨b1, b2, b3, b4⟩
  · rintro ⟨b1, b2, b3, b4⟩
    obtain ⟨a1, a2⟩ := hcy.mpr ⟨b1, b2⟩
    obtain ⟨a3, a4⟩ := hcx.mpr ⟨b3, b4⟩
    exact ⟨a1, a2, a3, a4⟩

/-- C2 counterexample: a sample at `x = 1919` (last column of the default
1920-wide grid), `y = 10`, `d = 5` with `kernel_size = 5` leaves the cell
`(10, 1919)` at the sentinel; the claim's clipping rule ("beyond the last
index → the last valid index") would have set it to 5, but the neighbouring
cell `(10, 1918)` in the clipped window does receive 5. -/
theorem C2_edge_clip_counterexample :
    lidar_array_to_image_like_tensor [⟨1919, 10, 5⟩] 1280 1920 5 10 1919 =
      -1 ∧
    lidar_array_to_image_like_tensor [⟨1919, 10, 5⟩] 1280 1920 5 10 1918 =
      5 ∧
    (-1 : ℚ) ≠ 5 := by
  have hcast : ([⟨1919, 10, 5⟩] : List LidarPoint) =
      [⟨((1919 : ℤ) : ℚ), ((10 : ℤ) : ℚ), 5⟩] := by norm_num
  refine ⟨?_, ?_, by norm_num⟩
  · rw [hcast, splat_single_cell 1280 1920 5 1919 10 5 10 1919
      (by norm_num) (by norm_num)]
    rw [if_neg (by decide)]
  · rw [hcast, splat_single_cell 1280 1920 5 1919 10 5 10 1918
      (by norm_num) (by norm_num)]
    rw [if_pos (by decide)]

/-- C2 (amended): with odd `kernel_size` and `shift = (kernel_size-1)/2`,
appending a sample with integer coordinates `(ix, iy)` to the sequence sets
exactly the window `[iy-shift, min (iy+shift) (H-2)] ×
[ix-shift, min (ix+shift) (W-2)]` to its range value (negative indices clip
to 0 via the natural row/column indices; the *exclusive* upper slice bound is
clamped to `size-1`, so the last valid index `size-1` is never written),
overwriting whatever an earlier sample wrote there; every cell no sample
covers stays at the sentinel `-1.0`, and a corner sample `(0, 0)` is handled
without failure, affecting only indices `≥ 0`. -/
theorem C2_splat_window_amended (H W k : ℕ) (hk : Odd k)
    (pts : List LidarPoint) (p : LidarPoint) (ix iy : ℤ)
    (hx : p.x = (ix : ℚ)) (hy : p.y = (iy : ℚ)) (r c : ℕ)
    (hr : r < H) (hc : c < W) :
    (lidar_array_to_image_like_tensor (pts ++ [p]) H W k r c =
      if iy - ((k - 1) / 2 : ℕ) ≤ (r : ℤ) ∧
          (r : ℤ) ≤ min (iy + ((k - 1) / 2 : ℕ)) ((H : ℤ) - 2) ∧
          ix - ((k - 1) / 2 : ℕ) ≤ (c : ℤ) ∧
          (c : ℤ) ≤ min (ix + ((k - 1) / 2 : ℕ)) ((W : ℤ) - 2) then p.d
      else lidar_array_to_image_like_tensor pts H W k r c) ∧
    lidar_array_to_image_like_tensor [] H W k r c = -1 := by
  refine ⟨?_, rfl⟩
  unfold lidar_array_to_image_like_tensor
  rw [List.foldl_append]
  simp only [List.foldl_cons, List.foldl_nil]
  simp only [splat_step]
  rw [hx, hy]
  have hcy := splat_cover_iff iy ((k - 1) / 2) H r hr
  have hcx := splat_cover_iff ix ((k - 1) / 2) W c hc
  refine if_congr ?_ rfl rfl
  constructor
  · rintro ⟨a1, a2, a3, a4⟩
    obtain ⟨b1, b2⟩ := hcy.mp ⟨a1, a2⟩
    obtain ⟨b3, b4⟩ := hcx.mp ⟨a3, a4⟩
    exact ⟨b1, b2, b3, b4⟩
  · rintro ⟨b1, b2, b3, b4⟩
    obtain ⟨a1, a2⟩ := hcy.mpr ⟨b1, b2⟩
    obtain ⟨a3, a4⟩ := hcx.mpr ⟨b3, b4⟩
    exact ⟨a1, a2, a3, a4⟩

/-- C2 witness: the amended window law applied to a single interior sample
`(10, 10, 5)` on the default grid with `kernel_size = 5`. -/
theorem C2_splat_window_amended_witness :
    (Odd 5 ∧ (LidarPoint.mk 10 10 5).x = ((10 : ℤ) : ℚ) ∧
      (LidarPoint.mk 10 10 5).y = ((10 : ℤ) : ℚ) ∧
      (10 : ℕ) < 1280 ∧ (10 : ℕ) < 1920) ∧
    ((lidar_array_to_image_like_tensor ([] ++ [⟨10, 10, 5⟩]) 1280 1920 5
        10 10 =
      if (10 : ℤ) - ((5 - 1) / 2 : ℕ) ≤ ((10 : ℕ) : ℤ) ∧
          ((10 : ℕ) : ℤ) ≤ min ((10 : ℤ) + ((5 - 1) / 2 : ℕ))
            ((1280 : ℤ) - 2) ∧
          (10 : ℤ) - ((5 - 1) / 2 : ℕ) ≤ ((10 : ℕ) : ℤ) ∧
          ((10 : ℕ) : ℤ) ≤ min ((10 : ℤ) + ((5 - 1) / 2 : ℕ))
            ((1920 : ℤ) - 2) then (LidarPoint.mk 10 10 5).d
      else lidar_array_to_image_like_tensor [] 1280 1920 5 10 10) ∧
      lidar_array_to_image_like_tensor [] 1280 1920 5 10 10 = -1) := by
  refine ⟨⟨by decide, by norm_num, by norm_num, by decide, by decide⟩, ?_⟩
  exact C2_splat_window_amended 1280 1920 5 (by decide) [] ⟨10, 10, 5⟩ 10 10
    (by norm_num) (by norm_num) 10 10 (by decide) (by decide)
